import Mathlib

/-!
Verification of the smart-store batch pipeline.

The development shallowly embeds the repository's Python scripts:

* `scripts/etl_to_dw.py` — the warehouse loader (`create_schema`,
  `delete_existing_records`, the `insert_*` helpers and `load_data_to_db`),
  modelled over an explicit SQLite connection state that distinguishes the
  committed database from the uncommitted working state of the open
  connection.
* `scripts/olap_cubing.py` — the cube builder (`generate_column_names`,
  `create_olap_cube`), modelled over in-memory dataframes whose cells carry
  the pandas value kinds that matter here (ints, rationals standing for
  floats, the IEEE specials, strings, and null/NaN).
* `scripts/data_preparation/prepare_sales_data.py` — the sales preparation
  pipeline (`remove_outliers` and `main`), together with a model of the
  repository's `utils/data_scrubber.py` (which is not part of the provided
  sources) reconstructed from the specification's description of the
  Scrubber contract.

Library semantics embedded alongside the scripts, with the places they are
used marked in the corresponding definitions:

* Python's `sqlite3` module (legacy transaction handling): a DML statement
  (`DELETE` / `INSERT`) implicitly opens a transaction if none is open; DDL
  (`CREATE TABLE`) executed outside a transaction takes effect immediately
  (autocommit); closing a connection without committing rolls back the open
  transaction.
* pandas `DataFrame.to_sql` called with a raw `sqlite3` connection manages
  its own transaction: it commits after a successful insert and rolls the
  connection back when the insert raises (pandas `io.sql.SQLiteDatabase
  .run_transaction`).
* pandas `groupby(dims)` drops rows with a null in any grouping key and
  sorts the group keys; `agg` with `sum` skips nulls (empty sum is 0) and
  `count` counts non-null values; element-wise division follows IEEE rules
  (x/0 is +inf for x > 0, -inf for x < 0, NaN for 0/0, and NaN propagates).
-/

namespace SmartStore

/-- Decidable equality for `Except`, used to evaluate the embedded fallible
operations on concrete inputs. -/
instance {ε α : Type} [DecidableEq ε] [DecidableEq α] : DecidableEq (Except ε α)
  | .ok a, .ok b =>
      if h : a = b then .isTrue (by rw [h]) else .isFalse (by intro hh; cases hh; exact h rfl)
  | .ok _, .error _ => .isFalse (by intro h; cases h)
  | .error _, .ok _ => .isFalse (by intro h; cases h)
  | .error e, .error e' =>
      if h : e = e' then .isTrue (by rw [h]) else .isFalse (by intro hh; cases hh; exact h rfl)

namespace ETL

/-- The five tables of the data warehouse schema in `etl_to_dw.py`. -/
inductive Tbl where
  | customers
  | products
  | sales
  | stores
  | campaigns
deriving DecidableEq, Repr

/-- A database: for each of the five tables, `none` when the table does not
exist, `some rows` when it exists with the given rows.  Row contents are
irrelevant to the loader, so the row type is a parameter. -/
structure DB (α : Type) where
  customers : Option (List α)
  products : Option (List α)
  sales : Option (List α)
  stores : Option (List α)
  campaigns : Option (List α)
deriving DecidableEq, Repr

def DB.get {α : Type} (d : DB α) : Tbl → Option (List α)
  | .customers => d.customers
  | .products => d.products
  | .sales => d.sales
  | .stores => d.stores
  | .campaigns => d.campaigns

def DB.set {α : Type} (d : DB α) : Tbl → Option (List α) → DB α
  | .customers, v => { d with customers := v }
  | .products, v => { d with products := v }
  | .sales, v => { d with sales := v }
  | .stores, v => { d with stores := v }
  | .campaigns, v => { d with campaigns := v }

/-- An open `sqlite3` connection: the durable committed state, the working
state seen through the connection, and whether an (implicit) transaction is
open.  `sqlite3.connect` yields `⟨db, db, false⟩`. -/
structure Conn (α : Type) where
  committed : DB α
  current : DB α
  inTxn : Bool
deriving DecidableEq, Repr

/-- `CREATE TABLE` / `CREATE TABLE IF NOT EXISTS`.  DDL executed outside a
transaction takes effect immediately (sqlite3 autocommit); the statements in
`create_schema` run before any DML, so this is the branch exercised there. -/
def createTable {α : Type} (ifNotExists : Bool) (t : Tbl) (c : Conn α) : Except (String × Conn α) (Conn α) :=
  match c.current.get t with
  | some _ =>
      if ifNotExists then .ok c
      else .error ("table already exists", c)
  | none =>
      let cur := c.current.set t (some [])
      .ok ⟨if c.inTxn then c.committed else cur, cur, c.inTxn⟩

/-- `DELETE FROM t` — DML: opens a transaction if none is open; the deletion
is visible through the connection but not yet committed. -/
def execDelete {α : Type} (t : Tbl) (c : Conn α) : Except (String × Conn α) (Conn α) :=
  match c.current.get t with
  | none => .error ("no such table", c)
  | some _ => .ok ⟨c.committed, c.current.set t (some []), true⟩

/-- pandas `DataFrame.to_sql(..., if_exists="append")` on a raw sqlite3
connection: appends the dataframe's rows and then **commits the connection's
transaction itself** (pandas `SQLiteDatabase.run_transaction` commits on
success and rolls back on failure).  `fail` is the oracle for claim inputs in
which this insert raises (e.g. the dataframe does not match the table). -/
def toSqlInsert {α : Type} (t : Tbl) (rows : List α) (fail : Bool) (c : Conn α) : Except (String × Conn α) (Conn α) :=
  if fail then
    .error ("insert failed", ⟨c.committed, c.committed, false⟩)
  else
    let old := (c.current.get t).getD []
    let cur := c.current.set t (some (old ++ rows))
    .ok ⟨cur, cur, false⟩

/-- `conn.commit()`. -/
def commit {α : Type} (c : Conn α) : Conn α := ⟨c.current, c.current, false⟩

/-- `create_schema` from `etl_to_dw.py`: `CREATE TABLE IF NOT EXISTS` for
customers, products and sales, but plain `CREATE TABLE` (no `IF NOT EXISTS`)
for stores and campaigns, in source order. -/
def create_schema {α : Type} (c : Conn α) : Except (String × Conn α) (Conn α) := do
  let c ← createTable true .customers c
  let c ← createTable true .products c
  let c ← createTable true .sales c
  let c ← createTable false .stores c
  createTable false .campaigns c

/-- `delete_existing_records` from `etl_to_dw.py`. -/
def delete_existing_records {α : Type} (c : Conn α) : Except (String × Conn α) (Conn α) := do
  let c ← execDelete .customers c
  let c ← execDelete .products c
  execDelete .sales c

/-- The three prepared dataframes read from `data/prepared` in
`load_data_to_db`. -/
structure LoadData (α : Type) where
  customers : List α
  products : List α
  sales : List α
deriving DecidableEq, Repr

/-- Failure oracle: which of the three `insert_*` calls raises. -/
structure FailFlags where
  failCustomers : Bool
  failProducts : Bool
  failSales : Bool
deriving DecidableEq, Repr

/-- `load_data_to_db` from `etl_to_dw.py`, as a function of the pre-run
committed database, the three prepared dataframes and the failure oracle.
It connects, runs `create_schema`, `delete_existing_records`, the three
inserts (`insert_customers`, `insert_products`, `insert_sales`, each via
pandas `to_sql`), then `conn.commit()`; the `finally` block closes the
connection, which rolls back whatever is uncommitted.  The result is the
committed database observable by a subsequent read, together with the
propagated exception message if any. -/
def load_data_to_db {α : Type} (pre : DB α) (d : LoadData α) (f : FailFlags) :
    DB α × Option String :=
  let run : Except (String × Conn α) (Conn α) := do
    let c ← create_schema (⟨pre, pre, false⟩ : Conn α)
    let c ← delete_existing_records c
    let c ← toSqlInsert .customers d.customers f.failCustomers c
    let c ← toSqlInsert .products d.products f.failProducts c
    let c ← toSqlInsert .sales d.sales f.failSales c
    .ok (commit c)
  match run with
  | .ok c => (c.committed, none)
  | .error (msg, c) => (c.committed, some msg)

/-- A database in which none of the five tables exists (a fresh file). -/
def dbFresh : DB ℕ := ⟨none, none, none, none, none⟩

/-- The database produced by a successful `create_schema` on a fresh file:
all five tables exist and are empty. -/
def dbEmpty5 : DB ℕ := ⟨some [], some [], some [], some [], some []⟩

/-- A pre-run warehouse holding one row in each of stores and campaigns. -/
def dbWithRefTables : DB ℕ := ⟨none, none, none, some [7], some [8]⟩

/-- First prepared datasets for the double-load scenario. -/
def dsFirst : LoadData ℕ := ⟨[1], [2], [31, 32]⟩

/-- Second prepared datasets for the double-load scenario. -/
def dsSecond : LoadData ℕ := ⟨[4], [5], [61]⟩

/-- Warehouse committed after a successful load of `dsFirst` into a fresh
database. -/
def dbAfterFirst : DB ℕ := ⟨some [1], some [2], some [31, 32], some [], some []⟩

end ETL

/-- A pandas cell value: Python ints, floats (modelled as rationals plus the
IEEE specials), strings, and null/NaN (`None` and `NaN`, which pandas
`isna` treats interchangeably as missing). -/
inductive Val where
  | int (n : ℤ)
  | real (q : ℚ)
  | inf
  | neginf
  | nan
  | str (s : String)
  | null
deriving DecidableEq, Repr

/-- Missing in the pandas sense (`isna`): `None` or `NaN`. -/
def Val.isNA : Val → Bool
  | .null => true
  | .nan => true
  | _ => false

def Val.isInt : Val → Bool
  | .int _ => true
  | _ => false

def Val.isFiniteNum : Val → Bool
  | .int _ => true
  | .real _ => true
  | _ => false

def Val.isStr : Val → Bool
  | .str _ => true
  | _ => false

def Val.toQ : Val → ℚ
  | .int n => (n : ℚ)
  | .real q => q
  | _ => 0

def Val.toS : Val → String
  | .str s => s
  | _ => ""

/-- A dataframe row, as a mapping from column name to cell value.  All rows
of one dataframe share the dataframe's column set, so a key missing from
the list stands for a null cell. -/
abbrev Row := List (String × Val)

/-- The cell of row `r` in column `c`. -/
def getVal (r : Row) (c : String) : Val := (r.lookup c).getD Val.null

/-- An in-memory pandas dataframe: the column names and the rows in order. -/
structure DataFrame where
  cols : List String
  rows : List Row
deriving DecidableEq, Repr

namespace Olap

/-- A float in the IEEE sense, for the arithmetic on aggregate columns:
a finite value (modelled as a rational), the two infinities, or NaN. -/
inductive F where
  | fin (q : ℚ)
  | pinf
  | ninf
  | nan
deriving DecidableEq, Repr

/-- Coercion of a cell into a float operand, as pandas does before an
element-wise arithmetic operation: null becomes NaN; a string operand
raises a `TypeError`. -/
def Val.toFloat : Val → Except String F
  | .int n => .ok (.fin (n : ℚ))
  | .real q => .ok (.fin q)
  | .inf => .ok .pinf
  | .neginf => .ok .ninf
  | .nan => .ok .nan
  | .null => .ok .nan
  | .str _ => .error "TypeError: unsupported operand for division"

/-- Rational multiplication written through `mkRat`, which evaluates by
reduction (the library's `Rat.mul`, `Rat.add` and `Rat.inv` are deliberately
opaque to unfolding, so concrete cubes could not be computed with them). -/
def qmul (a b : ℚ) : ℚ := mkRat (a.num * b.num) (a.den * b.den)

/-- Rational inverse through `mkRat` (0 maps to 0, a case the division below
never takes). -/
def qinv (a : ℚ) : ℚ :=
  mkRat (if 0 ≤ a.num then (a.den : ℤ) else -(a.den : ℤ)) a.num.natAbs

/-- Exact rational division through `mkRat`. -/
def qdiv (a b : ℚ) : ℚ := qmul a (qinv b)

/-- Rational addition through `mkRat`. -/
def qadd (a b : ℚ) : ℚ :=
  mkRat (a.num * (b.den : ℤ) + b.num * (a.den : ℤ)) (a.den * b.den)

/-- Sum of a list of rationals. -/
def qsum (l : List ℚ) : ℚ := l.foldr qadd 0

/-- IEEE division: NaN propagates; x/0 is +inf for x > 0, -inf for x < 0,
NaN for 0/0; a finite value over an infinity is 0; inf/inf is NaN. -/
def F.div : F → F → F
  | .nan, _ => .nan
  | _, .nan => .nan
  | .fin a, .fin b =>
      if b ≠ 0 then .fin (qdiv a b)
      else if 0 < a then .pinf
      else if a < 0 then .ninf
      else .nan
  | .pinf, .fin b => if b < 0 then .ninf else .pinf
  | .ninf, .fin b => if b < 0 then .pinf else .ninf
  | .fin _, .pinf => .fin 0
  | .fin _, .ninf => .fin 0
  | _, _ => .nan

def F.toVal : F → Val
  | .fin q => .real q
  | .pinf => .inf
  | .ninf => .neginf
  | .nan => .nan

/-- pandas element-wise division of two cells (used for the
`avg_transaction_size` column): both operands are coerced to floats and
divided under IEEE rules — division by zero silently yields an infinity or
NaN, it does not raise. -/
def pdiv (a b : Val) : Except String Val := do
  let x ← Val.toFloat a
  let y ← Val.toFloat b
  .ok (F.div x y).toVal

/-- pandas `sum` aggregation over a group's column values: nulls are
skipped, the empty sum is 0, an all-integer group sums to an integer, a
numeric group to a float (infinities absorb, opposite infinities give NaN),
an all-string group concatenates, and a mix of strings and numbers raises
a `TypeError`. -/
def aggSum (vs : List Val) : Except String Val :=
  let ws := vs.filter (fun v => !v.isNA)
  if ws.isEmpty then .ok (.int 0)
  else if ws.all Val.isInt then
    .ok (.int (ws.map (fun v => match v with | .int n => n | _ => 0)).sum)
  else if ws.all (fun v => v.isFiniteNum || v == Val.inf || v == Val.neginf) then
    if ws.contains Val.inf && ws.contains Val.neginf then .ok .nan
    else if ws.contains Val.inf then .ok .inf
    else if ws.contains Val.neginf then .ok .neginf
    else .ok (.real (qsum (ws.map Val.toQ)))
  else if ws.all Val.isStr then .ok (.str (String.join (ws.map Val.toS)))
  else .error "TypeError: mixed types in sum"

/-- pandas `count` aggregation: the number of non-null values. -/
def aggCount (vs : List Val) : Except String Val :=
  .ok (.int ((vs.filter (fun v => !v.isNA)).length : ℤ))

/-- pandas `mean` aggregation: the float sum divided by the non-null count
(NaN for an empty group). -/
def aggMean (vs : List Val) : Except String Val := do
  let ws := vs.filter (fun v => !v.isNA)
  if ws.isEmpty then .ok .nan
  else do
    let s ← aggSum ws
    pdiv s (.int (ws.length : ℤ))

/-- Dispatch of an aggregation-function name, as `grouped.agg` resolves it;
a name outside the supported set raises. -/
def aggApply (f : String) (vs : List Val) : Except String Val :=
  if f = "sum" then aggSum vs
  else if f = "count" then aggCount vs
  else if f = "mean" then aggMean vs
  else .error "AttributeError: unknown aggregation function"

/-- The value of a metrics-mapping entry: either a single function name or
a list of function names (`metrics` in `olap_cubing.py` is a dict whose
values may be a bare string or a list). -/
inductive AggSpec where
  | one (f : String)
  | many (fs : List String)
deriving DecidableEq, Repr

def AggSpec.funcs : AggSpec → List String
  | .one f => [f]
  | .many fs => fs

/-- Python `str.rstrip("_")` (written on the character list so that it
evaluates by reduction). -/
def rstripUnderscore (s : String) : String :=
  String.mk ((s.data.reverse.dropWhile (fun c => c = '_')).reverse)

/-- `generate_column_names` from `olap_cubing.py`: the dimensions, then one
`{column}_{func}` name per (column, function) pair in mapping order (a bare
function value is named the same way), with trailing underscores stripped
from every name. -/
def generate_column_names (dimensions : List String)
    (metrics : List (String × AggSpec)) : List String :=
  (dimensions ++
    (metrics.map (fun p => p.2.funcs.map (fun f => p.1 ++ "_" ++ f))).flatten).map
    rstripUnderscore

/-- The (column, function) pairs of the metrics mapping, in order. -/
def metricPairs (metrics : List (String × AggSpec)) : List (String × String) :=
  (metrics.map (fun p => p.2.funcs.map (fun f => (p.1, f)))).flatten

/-- The dimension-value tuple of a row (the group identity used by
`groupby`). -/
def keyOf (dims : List String) (r : Row) : List Val := dims.map (getVal r)

/-- The rows that participate in `groupby(dims)`: pandas drops any row with
a null in a grouping key. -/
def validRows (df : DataFrame) (dims : List String) : List Row :=
  df.rows.filter (fun r => (keyOf dims r).all (fun v => !v.isNA))

/-- The rows of the group with key `k`, in source order (pandas `groupby`
preserves within-group order). -/
def groupRows (df : DataFrame) (dims : List String) (k : List Val) : List Row :=
  (validRows df dims).filter (fun r => keyOf dims r = k)

/-- Ordering used by `groupby(..., sort=True)` on the group keys:
finite numerics by value, strings lexicographically; across kinds a fixed
precedence makes the order total (pandas raises on mixed-kind keys, which
no claim exercises). -/
def Val.rank : Val → ℕ
  | .neginf => 0
  | .int _ => 1
  | .real _ => 1
  | .inf => 2
  | .str _ => 3
  | .nan => 4
  | .null => 5

def Val.leB (a b : Val) : Bool :=
  if Val.rank a ≠ Val.rank b then Val.rank a < Val.rank b
  else match a, b with
    | .int m, .int n => m ≤ n
    | .int m, .real q => (m : ℚ) ≤ q
    | .real q, .int n => q ≤ (n : ℚ)
    | .real q, .real q' => q ≤ q'
    | .str s, .str t => s ≤ t
    | _, _ => true

/-- Lexicographic order on key tuples. -/
def keyLE : List Val → List Val → Bool
  | [], _ => true
  | _ :: _, [] => false
  | a :: as, b :: bs => if a = b then keyLE as bs else Val.leB a b

def insertKey (k : List Val) : List (List Val) → List (List Val)
  | [] => [k]
  | k' :: ks => if keyLE k k' then k :: k' :: ks else k' :: insertKey k ks

/-- Insertion sort of the group keys (the ascending key sort `groupby`
applies by default). -/
def sortKeys : List (List Val) → List (List Val)
  | [] => []
  | k :: ks => insertKey k (sortKeys ks)

/-- The distinct group keys in the order the aggregated frame lists them. -/
def groupKeysSorted (df : DataFrame) (dims : List String) : List (List Val) :=
  sortKeys ((validRows df dims).map (keyOf dims)).dedup

/-- A cube cell: a scalar, or the list-valued traceability cell. -/
inductive Cell where
  | val (v : Val)
  | idList (vs : List Val)
deriving DecidableEq, Repr

/-- The cube: column names and rows of cells. -/
structure Cube where
  cols : List String
  rows : List (List Cell)
deriving DecidableEq, Repr

/-- `List.mapM` specialised to `Except` with a transparent recursion, so the
ok-results can be inverted in proofs. -/
def mapE {α β : Type} (f : α → Except String β) : List α → Except String (List β)
  | [] => .ok []
  | a :: as => do
    let b ← f a
    let bs ← mapE f as
    .ok (b :: bs)

/-- One aggregated row before the derived column: the dimension values, one
aggregate cell per (column, function) pair, and the `sale_ids` traceability
cell — the ordered list of the group's `sale_id` values (`grouped["sale_id"]
.apply(list)` lists every value of the group, nulls included). -/
def buildRow (df : DataFrame) (dims : List String) (metrics : List (String × AggSpec))
    (k : List Val) : Except String (List Cell) := do
  let grp := groupRows df dims k
  let aggCells ← mapE
    (fun p => do
      let v ← aggApply p.2 (grp.map (fun r => getVal r p.1))
      .ok (Cell.val v))
    (metricPairs metrics)
  .ok (k.map Cell.val ++ aggCells ++ [Cell.idList (grp.map (fun r => getVal r "sale_id"))])

/-- Position of the first column with the given name (pandas label-based
column lookup; `none` models the `KeyError`). -/
def idxOfName (c : String) : List String → Option ℕ
  | [] => none
  | c' :: cs => if c' = c then some 0 else (idxOfName c cs).map (fun i => i + 1)

/-- The division `cube["sale_amount_sum"] / cube["sale_id_count"]` on one
row: reads the two cells at the resolved column positions and divides them
element-wise; the quotient cell is returned alongside the untouched row. -/
def divStep (i j : ℕ) (cells : List Cell) : Except String (List Cell × Cell) :=
  match cells[i]?, cells[j]? with
  | some (Cell.val a), some (Cell.val b) =>
      match pdiv a b with
      | .ok v => .ok (cells, Cell.val v)
      | .error e => .error e
  | _, _ => .error "TypeError: non-scalar operand"

/-- `create_olap_cube` from `olap_cubing.py`.  In source order: group by the
dimensions (`KeyError` when one is absent, `ValueError` when the list is
empty), aggregate the metrics mapping (`KeyError` for an absent metric
column, `AttributeError` for an unknown function name), attach the
`sale_ids` traceability column (`KeyError` when the dataframe has no
`sale_id` column), rename the columns to `generate_column_names` plus
`sale_ids`, and attach `avg_transaction_size` as the element-wise quotient
of the columns named exactly `sale_amount_sum` and `sale_id_count`
(`KeyError` when either name is missing).  Any exception propagates: no
cube is produced. -/
def create_olap_cube (df : DataFrame) (dimensions : List String)
    (metrics : List (String × AggSpec)) : Except String Cube :=
  if dimensions.isEmpty then .error "ValueError: no group keys passed"
  else if !dimensions.all (fun c => df.cols.contains c) then
    .error "KeyError: dimension column not found"
  else if !metrics.all (fun p => df.cols.contains p.1) then
    .error "KeyError: metric column not found"
  else if !metrics.all (fun p =>
      p.2.funcs.all (fun f => f = "sum" || f = "count" || f = "mean")) then
    .error "AttributeError: unknown aggregation function"
  else
    match mapE (buildRow df dimensions metrics) (groupKeysSorted df dimensions) with
    | .error e => .error e
    | .ok rows =>
      if !df.cols.contains "sale_id" then .error "KeyError: sale_id"
      else
        let explicit := generate_column_names dimensions metrics ++ ["sale_ids"]
        match idxOfName "sale_amount_sum" explicit, idxOfName "sale_id_count" explicit with
        | some i, some j =>
          (match mapE (divStep i j) rows with
          | .error e => .error e
          | .ok rows2 =>
            match idxOfName "avg_transaction_size" explicit with
            | some m => .ok ⟨explicit, rows2.map (fun p => p.1.set m p.2)⟩
            | none =>
                .ok ⟨explicit ++ ["avg_transaction_size"],
                  rows2.map (fun p => p.1 ++ [p.2])⟩)
        | _, _ => .error "KeyError: sale_amount_sum or sale_id_count"

/-- The dimensions `main` passes to `create_olap_cube`. -/
def stdDims : List String := ["customer_id"]

/-- The metrics mapping `main` passes: `{"sale_amount": ["sum"], "sale_id":
"count"}`. -/
def stdMetrics : List (String × AggSpec) :=
  [("sale_amount", .many ["sum"]), ("sale_id", .one "count")]

/-- The worked example's dataframe from the spec (§8, cube naming). -/
def exDF : DataFrame :=
  ⟨["customer_id", "sale_amount", "sale_id"],
   [[("customer_id", .int 1), ("sale_amount", .int 10), ("sale_id", .str "a")],
    [("customer_id", .int 1), ("sale_amount", .int 20), ("sale_id", .str "b")],
    [("customer_id", .int 2), ("sale_amount", .int 5), ("sale_id", .str "c")]]⟩

/-- A dataset with one sale whose `sale_id` is null: its group's
`sale_id_count` aggregate is 0. -/
def nullIdDF : DataFrame :=
  ⟨["customer_id", "sale_amount", "sale_id"],
   [[("customer_id", .int 1), ("sale_amount", .int 10), ("sale_id", Val.null)]]⟩

/-- A dataset in which two sales in different groups share the identifier
"a". -/
def dupIdDF : DataFrame :=
  ⟨["customer_id", "sale_amount", "sale_id"],
   [[("customer_id", .int 1), ("sale_amount", .int 10), ("sale_id", .str "a")],
    [("customer_id", .int 2), ("sale_amount", .int 5), ("sale_id", .str "a")]]⟩

/-- The source rows whose `sale_id` is listed in `ids` — the selection the
traceability claim re-aggregates over. -/
def rowsWithIdIn (df : DataFrame) (ids : List Val) : List Row :=
  df.rows.filter (fun r => ids.contains (getVal r "sale_id"))

/-- The dimension group of `main`'s configuration with customer key `k0`. -/
def stdGroup (df : DataFrame) (k0 : Val) : List Row := groupRows df stdDims [k0]

/-- The ordered `sale_id` values of that group — the contents of the cube
row's `sale_ids` cell. -/
def stdGroupIds (df : DataFrame) (k0 : Val) : List Val :=
  (stdGroup df k0).map (fun r => getVal r "sale_id")

end Olap

namespace Prep

/-- `campaign_id > 0` as pandas evaluates it row-wise in `remove_outliers`:
true for a positive number, false for null/NaN (comparisons with missing
values are false) and for every non-numeric cell. -/
def gtZero : Val → Bool
  | .int n => 0 < n
  | .real q => 0 < q
  | .inf => true
  | _ => false

/-- `campaign_id <= 0` as pandas evaluates it row-wise: true for a
non-positive number, false for null/NaN and non-numeric cells. -/
def leZero : Val → Bool
  | .int n => n ≤ 0
  | .real q => q ≤ 0
  | .neginf => true
  | _ => false

/-- `remove_outliers` from `prepare_sales_data.py`: counts the rows whose
`campaign_id` is missing or `<= 0` (the logged invalid count), keeps the
rows with `campaign_id > 0`, and reports `initial_count - len(df)` as the
removed count.  Result: the filtered dataframe, the invalid count, the
removed count. -/
def remove_outliers (df : DataFrame) : DataFrame × ℕ × ℕ :=
  let invalid := (df.rows.filter (fun r =>
      (getVal r "campaign_id").isNA || leZero (getVal r "campaign_id"))).length
  let kept := df.rows.filter (fun r => gtZero (getVal r "campaign_id"))
  (⟨df.cols, kept⟩, invalid, df.rows.length - kept.length)

/-- Modelled from the spec: the repository's `utils/data_scrubber.py`
(class `DataScrubber`) is not among the provided sources.  Spec §4.1:
`normalize_column_names()` "deterministically rewrites every column name to
a canonical form (lower-case, whitespace/punctuation replaced with a single
separator)"; a collision after normalization is a `SchemaConflict` error.
Each character is canonicalised here (alphanumerics lowered, everything
else becoming the underscore separator). -/
def normalizeName (s : String) : String :=
  String.mk (s.data.map (fun c => if c.isAlphanum then c.toLower else '_'))

/-- Modelled from the spec: `DataScrubber.normalize_column_names`, applied
to a held dataframe (column names and the rows' keys), surfacing a
`SchemaConflict` on a collision. -/
def normalize_column_names (d : DataFrame) : Except String DataFrame :=
  let newCols := d.cols.map normalizeName
  if newCols.Nodup then
    .ok ⟨newCols, d.rows.map (fun r => r.map (fun p => (normalizeName p.1, p.2)))⟩
  else .error "SchemaConflict"

/-- Python `str.strip()` (on the character list, so it reduces). -/
def trimWS (s : String) : String :=
  String.mk (((s.data.dropWhile Char.isWhitespace).reverse.dropWhile
    Char.isWhitespace).reverse)

/-- A canonical casing: upper-case the first character. -/
def capitalizeWord (s : String) : String :=
  match s.data with
  | [] => s
  | c :: cs => String.mk (c.toUpper :: cs)

/-- Modelled from the spec: `DataScrubber.format_string_columns` "trims
leading/trailing whitespace and applies a canonical casing rule; null
values pass through unchanged"; the casing rule is modelled as
capitalisation.  Non-string cells are untouched. -/
def formatCell : Val → Val
  | .str s => .str (capitalizeWord (trimWS s))
  | v => v

def format_string_columns (d : DataFrame) : DataFrame :=
  ⟨d.cols, d.rows.map (fun r => r.map (fun p => (p.1, formatCell p.2)))⟩

/-- The key tuple of a row over the deduplication subset. -/
def keyTuple (sub : List String) (r : Row) : List Val := sub.map (getVal r)

/-- First-seen deduplication by key tuple (`seen` holds the key tuples of
the rows already kept). -/
def dedupBy (sub : List String) (seen : List (List Val)) : List Row → List Row
  | [] => []
  | r :: rs =>
      if keyTuple sub r ∈ seen then dedupBy sub seen rs
      else r :: dedupBy sub (keyTuple sub r :: seen) rs

/-- Modelled from the spec: `DataScrubber.remove_duplicates(subset)` "drop
all but the first occurrence (by current row order) of each distinct
key-tuple". -/
def scrub_remove_duplicates (sub : List String) (d : DataFrame) : DataFrame :=
  ⟨d.cols, dedupBy sub [] d.rows⟩

/-- `df.fillna({col: v}, inplace=True)`: substitutes `v` for the missing
values of column `col` when the column exists; a column absent from the
frame is a no-op. -/
def fillna (col : String) (v : Val) (d : DataFrame) : DataFrame :=
  if d.cols.contains col then
    ⟨d.cols, d.rows.map (fun r => r.map (fun p =>
      if p.1 = col && p.2.isNA then (p.1, v) else p))⟩
  else d

/-- Modelled from the spec: `DataScrubber.rename_columns(mapping)` "renames
exactly the columns named as keys; unmatched keys are a no-op". -/
def renameName (mapping : List (String × String)) (c : String) : String :=
  ((mapping.lookup c).getD c)

def rename_columns (mapping : List (String × String)) (d : DataFrame) : DataFrame :=
  ⟨d.cols.map (renameName mapping),
   d.rows.map (fun r => r.map (fun p => (renameName mapping p.1, p.2)))⟩

/-- `main` of `prepare_sales_data.py`, threading the one dataframe object
the `DataScrubber` holds.  The aliasing of the Python code is made
explicit: `remove_duplicates` goes through the scrubber, so the held frame
advances to the deduplicated one; `handle_missing_values` calls
`df.fillna(..., inplace=True)` on that same object; `remove_outliers`
rebinds the local `df` to a fresh filtered frame **without** updating the
scrubber; the final `df = scrubber.rename_columns({"transaction_id":
"sale_id"})` returns the scrubber's held frame, so the pipeline's output is
the deduplicated, missing-value-filled frame — the outlier-filtered frame
is discarded, and no step parses `sale_date` anywhere in the pipeline. -/
def prepare_sales_main (raw : DataFrame) : Except String DataFrame := do
  let held1 ← normalize_column_names raw
  let held2 := format_string_columns held1
  let held3 := scrub_remove_duplicates ["transaction_id"] held2
  let held4 := fillna "BonusPoints" (.int 0) held3
  let _localDf := (remove_outliers held4).1
  .ok (rename_columns [("transaction_id", "sale_id")] held4)

/-- A raw sales extract with one valid row and one row whose `campaign_id`
is -1 (and well-formed dates, so any date rule is not what is at issue). -/
def rawSales : DataFrame :=
  ⟨["transaction_id", "campaign_id", "sale_date"],
   [[("transaction_id", .int 1), ("campaign_id", .int 5),
     ("sale_date", .str "2024-01-01")],
    [("transaction_id", .int 2), ("campaign_id", .int (-1)),
     ("sale_date", .str "2024-01-02")]]⟩

/-- What the pipeline writes to `sales_data_prepared.csv` for `rawSales`:
both rows survive, the invalid `campaign_id = -1` row included. -/
def prepOut : DataFrame :=
  ⟨["sale_id", "campaign_id", "sale_date"],
   [[("sale_id", .int 1), ("campaign_id", .int 5),
     ("sale_date", .str "2024-01-01")],
    [("sale_id", .int 2), ("campaign_id", .int (-1)),
     ("sale_date", .str "2024-01-02")]]⟩

end Prep

theorem mapE_ok_mem {α β : Type} {f : α → Except String β} :
    ∀ {l : List α} {l2 : List β}, Olap.mapE f l = .ok l2 → ∀ b ∈ l2, ∃ a ∈ l, f a = .ok b := by
  intro l
  induction l with
  | nil =>
      intro l2 h b hb
      simp only [Olap.mapE] at h
      cases h
      simp at hb
  | cons a as ih =>
      intro l2 h b hb
      simp only [Olap.mapE] at h
      cases hfa : f a with
      | error e => rw [hfa] at h; simp [Bind.bind, Except.bind] at h
      | ok b0 =>
          rw [hfa] at h
          cases hE : Olap.mapE f as with
          | error e => rw [hE] at h; simp [Bind.bind, Except.bind] at h
          | ok bs =>
              rw [hE] at h
              simp only [Bind.bind, Except.bind, Except.ok.injEq] at h
              subst h
              rcases List.mem_cons.mp hb with rfl | hb2
              · exact ⟨a, List.mem_cons_self a as, hfa⟩
              · obtain ⟨a2, ha2, hfa2⟩ := ih hE b hb2
                exact ⟨a2, List.mem_cons_of_mem _ ha2, hfa2⟩

theorem mem_insertKey {x k : List Val} {ks : List (List Val)} :
    x ∈ Olap.insertKey k ks ↔ x = k ∨ x ∈ ks := by
  induction ks with
  | nil => simp [Olap.insertKey]
  | cons k2 ks ih =>
      simp only [Olap.insertKey]
      split
      · simp [List.mem_cons]
      · simp [List.mem_cons, ih]
        tauto

theorem mem_sortKeys {x : List Val} {ks : List (List Val)} :
    x ∈ Olap.sortKeys ks ↔ x ∈ ks := by
  induction ks with
  | nil => simp [Olap.sortKeys]
  | cons k ks ih => simp [Olap.sortKeys, mem_insertKey, ih]

theorem mem_groupKeysSorted {df : DataFrame} {dims : List String} {k : List Val}
    (h : k ∈ Olap.groupKeysSorted df dims) :
    ∃ r ∈ Olap.validRows df dims, Olap.keyOf dims r = k := by
  rw [Olap.groupKeysSorted] at h
  exact List.mem_map.mp (List.mem_dedup.mp (mem_sortKeys.mp h))

theorem groupRows_ne_nil {df : DataFrame} {dims : List String} {k : List Val}
    (h : k ∈ Olap.groupKeysSorted df dims) :
    Olap.groupRows df dims k ≠ [] := by
  obtain ⟨r, hr, hk⟩ := mem_groupKeysSorted h
  refine List.ne_nil_of_mem (a := r) ?_
  rw [Olap.groupRows]
  exact List.mem_filter.mpr ⟨hr, by simp [hk]⟩

/-- Selecting the rows of a list whose image under `f` occurs among the
images of a filtered sublist recovers exactly that sublist, provided `f` is
duplicate-free on the whole list. -/
theorem filter_by_image_of_nodup {α β : Type} [DecidableEq β] (f : α → β) (l : List α)
    (p : α → Bool) (hND : (l.map f).Nodup) :
    l.filter (fun a => ((l.filter p).map f).contains (f a)) = l.filter p := by
  apply List.filter_congr
  intro a ha
  by_cases hp : p a = true
  · have hmem : f a ∈ (l.filter p).map f :=
      List.mem_map_of_mem f (List.mem_filter.mpr ⟨ha, hp⟩)
    simpa [hp] using List.elem_iff.mpr hmem
  · have hnotmem : f a ∉ (l.filter p).map f := by
      intro hmem
      obtain ⟨a2, ha2, hfa⟩ := List.mem_map.mp hmem
      have ha2l : a2 ∈ l := List.mem_of_mem_filter ha2
      have : a2 = a := List.inj_on_of_nodup_map hND ha2l ha hfa
      subst this
      exact hp (List.mem_filter.mp ha2).2
    simp only [Bool.not_eq_true] at hp
    rw [hp]
    by_contra hc
    rw [Bool.not_eq_false] at hc
    exact hnotmem (List.elem_iff.mp hc)

/-- Selecting by the identifiers of a group recovers exactly the group when
the dataset's `sale_id` values are duplicate-free. -/
theorem rowsWithIdIn_groupRows (df : DataFrame) (dims : List String) (k : List Val)
    (hND : (df.rows.map (fun r => getVal r "sale_id")).Nodup) :
    Olap.rowsWithIdIn df ((Olap.groupRows df dims k).map (fun r => getVal r "sale_id"))
      = Olap.groupRows df dims k := by
  have h1 : Olap.groupRows df dims k
      = df.rows.filter (fun r =>
          decide (Olap.keyOf dims r = k) && (Olap.keyOf dims r).all (fun v => !v.isNA)) := by
    rw [Olap.groupRows, Olap.validRows, List.filter_filter]
  rw [Olap.rowsWithIdIn, h1]
  exact filter_by_image_of_nodup (fun r => getVal r "sale_id") df.rows _ hND

/-- Inversion of `buildRow` under `main`'s configuration: a successful
aggregated row is the key cell, the two aggregate cells, and the group's
ordered `sale_id` list. -/
theorem buildRow_std_ok {df : DataFrame} {k : List Val} {cells : List Olap.Cell}
    (h : Olap.buildRow df Olap.stdDims Olap.stdMetrics k = .ok cells) :
    ∃ v1 v2,
      Olap.aggSum ((Olap.groupRows df Olap.stdDims k).map (fun r => getVal r "sale_amount"))
        = .ok v1
      ∧ Olap.aggCount ((Olap.groupRows df Olap.stdDims k).map (fun r => getVal r "sale_id"))
        = .ok v2
      ∧ cells = k.map Olap.Cell.val ++ [Olap.Cell.val v1, Olap.Cell.val v2,
          Olap.Cell.idList ((Olap.groupRows df Olap.stdDims k).map
            (fun r => getVal r "sale_id"))] := by
  rw [Olap.buildRow] at h
  rw [show Olap.metricPairs Olap.stdMetrics = [("sale_amount", "sum"), ("sale_id", "count")]
    from rfl] at h
  simp only [Olap.mapE, Olap.aggApply, Bind.bind, Except.bind, reduceIte] at h
  cases hs : Olap.aggSum ((Olap.groupRows df Olap.stdDims k).map
      (fun r => getVal r "sale_amount")) with
  | error e => rw [hs] at h; dsimp only at h; cases h
  | ok v1 =>
      rw [hs] at h
      dsimp only [Olap.aggCount] at h
      simp only [String.reduceEq, reduceIte] at h
      rw [Except.ok.injEq] at h
      subst h
      exact ⟨v1, _, rfl, rfl, by simp⟩

/-- Inversion of a successful `create_olap_cube` under `main`'s
configuration: the cube's columns, and for every cube row its key, the two
aggregates computed over the row's group, the group's ordered `sale_id`
list, and the quotient cell. -/
theorem std_cube_ok_parts {df : DataFrame} {cube : Olap.Cube}
    (h : Olap.create_olap_cube df Olap.stdDims Olap.stdMetrics = .ok cube) :
    cube.cols = ["customer_id", "sale_amount_sum", "sale_id_count", "sale_ids",
      "avg_transaction_size"]
    ∧ ∀ row ∈ cube.rows, ∃ k0 v1 v2 w,
        [k0] ∈ Olap.groupKeysSorted df Olap.stdDims
        ∧ row = [Olap.Cell.val k0, Olap.Cell.val v1, Olap.Cell.val v2,
            Olap.Cell.idList (Olap.stdGroupIds df k0), Olap.Cell.val w]
        ∧ Olap.aggSum ((Olap.stdGroup df k0).map (fun r => getVal r "sale_amount")) = .ok v1
        ∧ Olap.aggCount ((Olap.stdGroup df k0).map (fun r => getVal r "sale_id")) = .ok v2
        ∧ Olap.pdiv v1 v2 = .ok w := by
  rw [Olap.create_olap_cube] at h
  rw [show Olap.stdDims.isEmpty = false from rfl] at h
  simp only [Bool.false_eq_true, if_false] at h
  by_cases c2 : (!Olap.stdDims.all fun c => df.cols.contains c) = true
  · rw [if_pos c2] at h; cases h
  rw [if_neg c2] at h
  by_cases c3 : (!Olap.stdMetrics.all fun p => df.cols.contains p.1) = true
  · rw [if_pos c3] at h; cases h
  rw [if_neg c3] at h
  rw [show (!Olap.stdMetrics.all fun p =>
      p.2.funcs.all fun f => decide (f = "sum") || decide (f = "count")
        || decide (f = "mean")) = false from rfl] at h
  simp only [Bool.false_eq_true, if_false] at h
  cases hE : Olap.mapE (Olap.buildRow df Olap.stdDims Olap.stdMetrics)
      (Olap.groupKeysSorted df Olap.stdDims) with
  | error e => rw [hE] at h; cases h
  | ok rows =>
  rw [hE] at h
  dsimp only at h
  by_cases c6 : (!df.cols.contains "sale_id") = true
  · rw [if_pos c6] at h; cases h
  rw [if_neg c6] at h
  rw [show Olap.idxOfName "sale_amount_sum"
      (Olap.generate_column_names Olap.stdDims Olap.stdMetrics ++ ["sale_ids"]) = some 1 from rfl,
    show Olap.idxOfName "sale_id_count"
      (Olap.generate_column_names Olap.stdDims Olap.stdMetrics ++ ["sale_ids"]) = some 2 from rfl,
    show Olap.idxOfName "avg_transaction_size"
      (Olap.generate_column_names Olap.stdDims Olap.stdMetrics ++ ["sale_ids"]) = none from rfl]
    at h
  dsimp only at h
  cases hD : Olap.mapE (Olap.divStep 1 2) rows with
  | error e => rw [hD] at h; cases h
  | ok rows2 =>
  rw [hD] at h
  dsimp only at h
  rw [Except.ok.injEq] at h
  subst h
  refine ⟨rfl, ?_⟩
  intro row hrow
  obtain ⟨p, hp, hpe⟩ := List.mem_map.mp hrow
  obtain ⟨cells, hcells, hdiv⟩ := mapE_ok_mem hD p hp
  obtain ⟨k, hk, hbuild⟩ := mapE_ok_mem hE cells hcells
  obtain ⟨r, hr, hkey⟩ := mem_groupKeysSorted hk
  have hkk : k = [getVal r "customer_id"] := by rw [← hkey]; rfl
  subst hkk
  obtain ⟨v1, v2, hs, hc, hcells_eq⟩ := buildRow_std_ok hbuild
  subst hcells_eq
  rw [Olap.divStep] at hdiv
  simp only [List.map_cons, List.map_nil, List.cons_append, List.nil_append,
    List.getElem?_cons_succ, List.getElem?_cons_zero] at hdiv
  cases hw : Olap.pdiv v1 v2 with
  | error e => rw [hw] at hdiv; cases hdiv
  | ok w =>
  rw [hw] at hdiv
  rw [Except.ok.injEq] at hdiv
  subst hdiv
  refine ⟨getVal r "customer_id", v1, v2, w, hk, ?_, hs, hc, hw⟩
  rw [← hpe]
  simp [Olap.stdGroupIds, Olap.stdGroup]

/-- Division of any cell by the integer 0 never yields a finite value: it
is an infinity or NaN whenever it does not raise. -/
theorem pdiv_by_zero_not_finite {a w : Val} (h : Olap.pdiv a (Val.int 0) = .ok w) :
    w = Val.inf ∨ w = Val.neginf ∨ w = Val.nan := by
  cases a <;>
    simp only [Olap.pdiv, Olap.Val.toFloat, Bind.bind, Except.bind, Int.cast_zero] at h
  case str s => cases h
  all_goals
    rw [Except.ok.injEq] at h
    subst h
    rw [Olap.F.div]
  case int n =>
    split_ifs <;> simp_all [Olap.F.toVal]
  case real q =>
    split_ifs <;> simp_all [Olap.F.toVal]
  all_goals first
    | (split_ifs <;> simp_all [Olap.F.toVal])
    | simp [Olap.F.toVal]

/-- A successful column-position lookup implies the name occurs among the
columns. -/
theorem idxOfName_some_mem {c : String} : ∀ {l : List String} {i : ℕ},
    Olap.idxOfName c l = some i → c ∈ l := by
  intro l
  induction l with
  | nil => intro i h; cases h
  | cons a as ih =>
      intro i h
      rw [Olap.idxOfName] at h
      by_cases ha : a = c
      · exact ha ▸ List.mem_cons_self a as
      · rw [if_neg ha] at h
        cases hE : Olap.idxOfName c as with
        | none => rw [hE] at h; cases h
        | some j => exact List.mem_cons_of_mem _ (ih hE)

/-- C1: the load is not all-or-nothing.  Concrete run: fresh database, the
customers and products inserts succeed and the sales insert raises before
the final commit.  A subsequent read of the warehouse shows customers and
products fully loaded and sales empty — not the pre-run committed state —
because pandas `to_sql` commits the connection's transaction after each
successful insert, so the deletions and the first two inserts are already
durable when `insert_sales` fails.  This refutes the claimed atomicity. -/
theorem load_data_to_db_partial_commit_on_sales_failure :
    ETL.load_data_to_db ETL.dbFresh ⟨[1, 2], [3], [4, 5]⟩ ⟨false, false, true⟩
      = (⟨some [1, 2], some [3], some [], some [], some []⟩, some "insert failed")
    ∧ (ETL.load_data_to_db ETL.dbFresh ⟨[1, 2], [3], [4, 5]⟩ ⟨false, false, true⟩).1
      ≠ ETL.dbFresh := by
  decide

/-- C2: `create_schema` is not idempotent.  From a fresh database one call
succeeds and creates the five tables; calling it again on the resulting
state raises ("table stores already exists"), because the `stores` and
`campaigns` statements lack `IF NOT EXISTS` — contradicting the function's
own docstring ("Create tables in the data warehouse if they don't exist"). -/
theorem create_schema_second_call_raises :
    ETL.create_schema (⟨ETL.dbFresh, ETL.dbFresh, false⟩ : ETL.Conn ℕ)
      = .ok ⟨ETL.dbEmpty5, ETL.dbEmpty5, false⟩
    ∧ ETL.create_schema (⟨ETL.dbEmpty5, ETL.dbEmpty5, false⟩ : ETL.Conn ℕ)
      = .error ("table already exists", ⟨ETL.dbEmpty5, ETL.dbEmpty5, false⟩) := by
  decide

/-- C3: loading twice does not leave the second datasets' rows.  The first
load into a fresh database succeeds; the second run raises in
`create_schema` ("table stores already exists") before deleting anything,
so every table still holds the first datasets' rows, not the second's. -/
theorem second_load_keeps_first_rows :
    ETL.load_data_to_db ETL.dbFresh ETL.dsFirst ⟨false, false, false⟩
      = (ETL.dbAfterFirst, none)
    ∧ ETL.load_data_to_db ETL.dbAfterFirst ETL.dsSecond ⟨false, false, false⟩
      = (ETL.dbAfterFirst, some "table already exists")
    ∧ ETL.dbAfterFirst.sales = some ETL.dsFirst.sales
    ∧ ETL.dsFirst.sales ≠ ETL.dsSecond.sales := by
  decide

/-- C9: frame property of the load.  For every pre-run warehouse in which
the stores and campaigns tables exist (with any rows), every datasets and
every failure pattern of the inserts, the committed contents of stores and
campaigns after `load_data_to_db` are identical to their pre-run contents:
no statement of the load deletes from or inserts into those two tables. -/
theorem load_data_to_db_preserves_stores_campaigns {α : Type} (pre : ETL.DB α)
    (d : ETL.LoadData α) (f : ETL.FailFlags) (s c : List α)
    (hs : pre.stores = some s) (hc : pre.campaigns = some c) :
    (ETL.load_data_to_db pre d f).1.stores = some s
    ∧ (ETL.load_data_to_db pre d f).1.campaigns = some c := by
  obtain ⟨cu, pr, sa, st, ca⟩ := pre
  simp only [ETL.DB.stores] at hs
  simp only [ETL.DB.campaigns] at hc
  subst hs hc
  cases cu <;> cases pr <;> cases sa <;>
    simp [ETL.load_data_to_db, ETL.create_schema, ETL.createTable, ETL.DB.get, ETL.DB.set,
      Bind.bind, Except.bind]

/-- C9 witness: the frame property applied to a concrete warehouse whose
stores table holds `[7]` and campaigns table holds `[8]`. -/
theorem load_data_to_db_preserves_stores_campaigns_witness :
    (ETL.load_data_to_db ETL.dbWithRefTables ⟨[1], [2], [3]⟩ ⟨false, false, true⟩).1.stores
      = some [7]
    ∧ (ETL.load_data_to_db ETL.dbWithRefTables ⟨[1], [2], [3]⟩ ⟨false, false, true⟩).1.campaigns
      = some [8] :=
  load_data_to_db_preserves_stores_campaigns ETL.dbWithRefTables ⟨[1], [2], [3]⟩
    ⟨false, false, true⟩ [7] [8] rfl rfl

/-- C4: the worked example of the spec, computed exactly.  Dimensions
`["customer_id"]` and metrics `{"sale_amount": ["sum"], "sale_id":
"count"}` over the three example rows produce the columns `customer_id,
sale_amount_sum, sale_id_count, sale_ids, avg_transaction_size` (the
`{column}_{function}` names with trailing separators stripped) and exactly
the rows `(1, 30, 2, ["a","b"], 15.0)` and `(2, 5, 1, ["c"], 5.0)`. -/
theorem create_olap_cube_worked_example :
    Olap.create_olap_cube Olap.exDF Olap.stdDims Olap.stdMetrics = .ok
      ⟨["customer_id", "sale_amount_sum", "sale_id_count", "sale_ids",
        "avg_transaction_size"],
       [[.val (.int 1), .val (.int 30), .val (.int 2),
         .idList [.str "a", .str "b"], .val (.real 15)],
        [.val (.int 2), .val (.int 5), .val (.int 1),
         .idList [.str "c"], .val (.real 5)]]⟩ := by
  decide

/-- C5 counterexample: on a dataset whose single group has
`sale_id_count = 0` (its one `sale_id` is null), `create_olap_cube` raises
no error and chooses no null — it returns a cube whose
`avg_transaction_size` cell is the float infinity produced by `10 / 0`,
silently propagated into the cube. -/
theorem create_olap_cube_silent_infinity :
    Olap.create_olap_cube Olap.nullIdDF Olap.stdDims Olap.stdMetrics = .ok
      ⟨["customer_id", "sale_amount_sum", "sale_id_count", "sale_ids",
        "avg_transaction_size"],
       [[.val (.int 1), .val (.int 10), .val (.int 0),
         .idList [Val.null], .val .inf]]⟩ := by
  decide

/-- C6 counterexample: when two source rows in different groups share the
identifier "a", the cube row of customer 1 carries `sale_amount_sum = 10`,
but re-aggregating `sale_amount` over the source rows whose identifier is
in that row's `sale_ids` list (both rows) yields 15 — the claimed
reconstruction fails for this input. -/
theorem cube_traceability_fails_on_duplicate_ids :
    Olap.create_olap_cube Olap.dupIdDF Olap.stdDims Olap.stdMetrics = .ok
      ⟨["customer_id", "sale_amount_sum", "sale_id_count", "sale_ids",
        "avg_transaction_size"],
       [[.val (.int 1), .val (.int 10), .val (.int 1),
         .idList [.str "a"], .val (.real 10)],
        [.val (.int 2), .val (.int 5), .val (.int 1),
         .idList [.str "a"], .val (.real 5)]]⟩
    ∧ Olap.stdGroupIds Olap.dupIdDF (.int 1) = [.str "a"]
    ∧ Olap.aggSum ((Olap.rowsWithIdIn Olap.dupIdDF [.str "a"]).map
        (fun r => getVal r "sale_amount")) = .ok (.int 15)
    ∧ Val.int 15 ≠ Val.int 10 := by
  decide

/-- C7: validity filtering on `campaign_id`.  For every sales dataset of
four rows whose `campaign_id` cells are -1, 0, null and 5 (whatever the
other cells), `remove_outliers` keeps exactly the row with `campaign_id =
5`, counts 3 invalid rows, and reports a removed count of 3. -/
theorem remove_outliers_campaign_filter (cols : List String) (r₁ r₂ r₃ r₄ : Row)
    (h₁ : getVal r₁ "campaign_id" = .int (-1))
    (h₂ : getVal r₂ "campaign_id" = .int 0)
    (h₃ : getVal r₃ "campaign_id" = Val.null)
    (h₄ : getVal r₄ "campaign_id" = .int 5) :
    Prep.remove_outliers ⟨cols, [r₁, r₂, r₃, r₄]⟩ = (⟨cols, [r₄]⟩, 3, 3) := by
  simp [Prep.remove_outliers, List.filter, h₁, h₂, h₃, h₄, Val.isNA, Prep.gtZero,
    Prep.leZero]

/-- C7 witness: the filter evaluated on a concrete four-row dataset. -/
theorem remove_outliers_campaign_filter_witness :
    Prep.remove_outliers ⟨["campaign_id"],
      [[("campaign_id", .int (-1))], [("campaign_id", .int 0)],
       [("campaign_id", Val.null)], [("campaign_id", .int 5)]]⟩
      = (⟨["campaign_id"], [[("campaign_id", .int 5)]]⟩, 3, 3) :=
  remove_outliers_campaign_filter ["campaign_id"]
    [("campaign_id", .int (-1))] [("campaign_id", .int 0)]
    [("campaign_id", Val.null)] [("campaign_id", .int 5)]
    rfl rfl rfl rfl

/-- C8: the pipeline does not enforce the sales validity rules.  On a raw
extract with a `campaign_id = -1` row, `main` computes the outlier filter
(which would keep a single row) but then saves the scrubber's held frame,
which still contains the invalid row — and no step of the pipeline parses
`sale_date` at all.  The prepared output therefore contains a row with
`campaign_id ≤ 0`. -/
theorem prepare_sales_main_keeps_invalid_row :
    Prep.prepare_sales_main Prep.rawSales = .ok Prep.prepOut
    ∧ (∃ r ∈ Prep.prepOut.rows, getVal r "campaign_id" = .int (-1)
        ∧ Prep.gtZero (getVal r "campaign_id") = false)
    ∧ ((Prep.remove_outliers Prep.rawSales).1.rows.length = 1
        ∧ Prep.prepOut.rows.length = 2) := by
  decide

/-- C5 amended: when a group's `sale_id_count` aggregate is 0, the cube
builder raises no error and substitutes no null — for every input dataset,
every cube row produced by `main`'s configuration whose count cell is 0
carries an `avg_transaction_size` cell that is a float infinity or NaN,
silently placed in the cube by the IEEE division. -/
theorem create_olap_cube_zero_count_infinite (df : DataFrame) (cube : Olap.Cube)
    (h : Olap.create_olap_cube df Olap.stdDims Olap.stdMetrics = .ok cube) :
    ∀ row ∈ cube.rows, row[2]? = some (Olap.Cell.val (Val.int 0)) →
      ∃ w, row[4]? = some (Olap.Cell.val w)
        ∧ (w = Val.inf ∨ w = Val.neginf ∨ w = Val.nan) := by
  intro row hrow hzero
  obtain ⟨-, hrows⟩ := std_cube_ok_parts h
  obtain ⟨k0, v1, v2, w, hk, hrow_eq, hs, hc, hw⟩ := hrows row hrow
  subst hrow_eq
  simp only [List.getElem?_cons_succ, List.getElem?_cons_zero, Option.some.injEq] at hzero
  rw [Olap.Cell.val.injEq] at hzero
  subst hzero
  exact ⟨w, rfl, pdiv_by_zero_not_finite hw⟩

/-- C5 amended, witness: the zero-count dataset's single cube row has count
cell 0 and an infinite average cell. -/
theorem create_olap_cube_zero_count_infinite_witness :
    ∃ w, ([Olap.Cell.val (Val.int 1), Olap.Cell.val (Val.int 10), Olap.Cell.val (Val.int 0),
        Olap.Cell.idList [Val.null], Olap.Cell.val Val.inf] : List Olap.Cell)[4]?
      = some (Olap.Cell.val w) ∧ (w = Val.inf ∨ w = Val.neginf ∨ w = Val.nan) :=
  create_olap_cube_zero_count_infinite Olap.nullIdDF
    ⟨["customer_id", "sale_amount_sum", "sale_id_count", "sale_ids", "avg_transaction_size"],
     [[Olap.Cell.val (Val.int 1), Olap.Cell.val (Val.int 10), Olap.Cell.val (Val.int 0),
       Olap.Cell.idList [Val.null], Olap.Cell.val Val.inf]]⟩
    (by decide)
    [Olap.Cell.val (Val.int 1), Olap.Cell.val (Val.int 10), Olap.Cell.val (Val.int 0),
     Olap.Cell.idList [Val.null], Olap.Cell.val Val.inf]
    (by decide) (by decide)

/-- C6 amended: the traceability invariant holds for every input dataset
whose `sale_id` values are pairwise distinct.  Every cube row of `main`'s
configuration carries a non-empty `sale_ids` list — the identifiers of
exactly the rows of its dimension group, in first-seen source order — and
re-aggregating `sale_amount` (sum) and `sale_id` (count) over the source
rows selected by that list reproduces the row's aggregate cells exactly. -/
theorem cube_traceability_with_unique_ids (df : DataFrame) (cube : Olap.Cube)
    (hND : (df.rows.map (fun r => getVal r "sale_id")).Nodup)
    (h : Olap.create_olap_cube df Olap.stdDims Olap.stdMetrics = .ok cube) :
    ∀ row ∈ cube.rows, ∃ k0 v1 v2 w,
      Olap.stdGroupIds df k0 ≠ []
      ∧ row = [Olap.Cell.val k0, Olap.Cell.val v1, Olap.Cell.val v2,
          Olap.Cell.idList (Olap.stdGroupIds df k0), Olap.Cell.val w]
      ∧ Olap.rowsWithIdIn df (Olap.stdGroupIds df k0) = Olap.stdGroup df k0
      ∧ Olap.aggSum ((Olap.rowsWithIdIn df (Olap.stdGroupIds df k0)).map
          (fun r => getVal r "sale_amount")) = .ok v1
      ∧ Olap.aggCount ((Olap.rowsWithIdIn df (Olap.stdGroupIds df k0)).map
          (fun r => getVal r "sale_id")) = .ok v2 := by
  intro row hrow
  obtain ⟨-, hrows⟩ := std_cube_ok_parts h
  obtain ⟨k0, v1, v2, w, hk, hrow_eq, hs, hc, hw⟩ := hrows row hrow
  have hsel : Olap.rowsWithIdIn df (Olap.stdGroupIds df k0) = Olap.stdGroup df k0 :=
    rowsWithIdIn_groupRows df Olap.stdDims [k0] hND
  have hne : Olap.stdGroup df k0 ≠ [] := groupRows_ne_nil hk
  refine ⟨k0, v1, v2, w, ?_, hrow_eq, hsel, ?_, ?_⟩
  · simp only [Olap.stdGroupIds, ne_eq, List.map_eq_nil_iff]
    exact hne
  · rw [hsel]; exact hs
  · rw [hsel]; exact hc

/-- C6 amended, witness: the first cube row of the worked example, with its
distinct identifiers "a", "b", "c". -/
theorem cube_traceability_with_unique_ids_witness :
    ∃ k0 v1 v2 w,
      Olap.stdGroupIds Olap.exDF k0 ≠ []
      ∧ ([Olap.Cell.val (Val.int 1), Olap.Cell.val (Val.int 30), Olap.Cell.val (Val.int 2),
          Olap.Cell.idList [Val.str "a", Val.str "b"], Olap.Cell.val (Val.real 15)]
          : List Olap.Cell)
        = [Olap.Cell.val k0, Olap.Cell.val v1, Olap.Cell.val v2,
            Olap.Cell.idList (Olap.stdGroupIds Olap.exDF k0), Olap.Cell.val w]
      ∧ Olap.rowsWithIdIn Olap.exDF (Olap.stdGroupIds Olap.exDF k0) = Olap.stdGroup Olap.exDF k0
      ∧ Olap.aggSum ((Olap.rowsWithIdIn Olap.exDF (Olap.stdGroupIds Olap.exDF k0)).map
          (fun r => getVal r "sale_amount")) = .ok v1
      ∧ Olap.aggCount ((Olap.rowsWithIdIn Olap.exDF (Olap.stdGroupIds Olap.exDF k0)).map
          (fun r => getVal r "sale_id")) = .ok v2 :=
  cube_traceability_with_unique_ids Olap.exDF
    ⟨["customer_id", "sale_amount_sum", "sale_id_count", "sale_ids", "avg_transaction_size"],
     [[Olap.Cell.val (Val.int 1), Olap.Cell.val (Val.int 30), Olap.Cell.val (Val.int 2),
       Olap.Cell.idList [Val.str "a", Val.str "b"], Olap.Cell.val (Val.real 15)],
      [Olap.Cell.val (Val.int 2), Olap.Cell.val (Val.int 5), Olap.Cell.val (Val.int 1),
       Olap.Cell.idList [Val.str "c"], Olap.Cell.val (Val.real 5)]]⟩
    (by decide) (by decide)
    [Olap.Cell.val (Val.int 1), Olap.Cell.val (Val.int 30), Olap.Cell.val (Val.int 2),
     Olap.Cell.idList [Val.str "a", Val.str "b"], Olap.Cell.val (Val.real 15)]
    (by decide)

/-- C10: partiality of the generic cube interface.  Whenever
`create_olap_cube` succeeds — for any dataset, dimensions and metrics — the
dataset has a `sale_id` column (the hard-coded traceability read) and the
generated column names include exactly the strings `sale_amount_sum` and
`sale_id_count` (the hard-coded operands of `avg_transaction_size`); for
every configuration violating one of these the call raises and no cube is
produced. -/
theorem create_olap_cube_requires_hardcoded_columns (df : DataFrame)
    (dims : List String) (metrics : List (String × Olap.AggSpec))
    (h : (Olap.create_olap_cube df dims metrics).isOk = true) :
    df.cols.contains "sale_id" = true
    ∧ "sale_amount_sum" ∈ Olap.generate_column_names dims metrics
    ∧ "sale_id_count" ∈ Olap.generate_column_names dims metrics := by
  rw [Olap.create_olap_cube] at h
  by_cases c1 : dims.isEmpty = true
  · rw [if_pos c1] at h; cases h
  rw [if_neg c1] at h
  by_cases c2 : (!dims.all fun c => df.cols.contains c) = true
  · rw [if_pos c2] at h; cases h
  rw [if_neg c2] at h
  by_cases c3 : (!metrics.all fun p => df.cols.contains p.1) = true
  · rw [if_pos c3] at h; cases h
  rw [if_neg c3] at h
  by_cases c4 : (!metrics.all fun p =>
      p.2.funcs.all fun f => decide (f = "sum") || decide (f = "count")
        || decide (f = "mean")) = true
  · rw [if_pos c4] at h; cases h
  rw [if_neg c4] at h
  cases hE : Olap.mapE (Olap.buildRow df dims metrics) (Olap.groupKeysSorted df dims) with
  | error e => rw [hE] at h; cases h
  | ok rows =>
  rw [hE] at h
  dsimp only at h
  by_cases c6 : (!df.cols.contains "sale_id") = true
  · rw [if_pos c6] at h; cases h
  rw [if_neg c6] at h
  have hsale : df.cols.contains "sale_id" = true := by
    simpa using c6
  cases hI : Olap.idxOfName "sale_amount_sum"
      (Olap.generate_column_names dims metrics ++ ["sale_ids"]) with
  | none => rw [hI] at h; dsimp only at h; cases h
  | some i =>
  cases hJ : Olap.idxOfName "sale_id_count"
      (Olap.generate_column_names dims metrics ++ ["sale_ids"]) with
  | none => rw [hI, hJ] at h; dsimp only at h; cases h
  | some j =>
  have hmem1 : "sale_amount_sum" ∈ Olap.generate_column_names dims metrics := by
    rcases List.mem_append.mp (idxOfName_some_mem hI) with hm | hm
    · exact hm
    · simp at hm
  have hmem2 : "sale_id_count" ∈ Olap.generate_column_names dims metrics := by
    rcases List.mem_append.mp (idxOfName_some_mem hJ) with hm | hm
    · exact hm
    · simp at hm
  exact ⟨hsale, hmem1, hmem2⟩

/-- C10 witness: `main`'s configuration on the worked example satisfies the
three conditions. -/
theorem create_olap_cube_requires_hardcoded_columns_witness :
    Olap.exDF.cols.contains "sale_id" = true
    ∧ "sale_amount_sum" ∈ Olap.generate_column_names Olap.stdDims Olap.stdMetrics
    ∧ "sale_id_count" ∈ Olap.generate_column_names Olap.stdDims Olap.stdMetrics :=
  create_olap_cube_requires_hardcoded_columns Olap.exDF Olap.stdDims Olap.stdMetrics
    (by decide)

end SmartStore
